import Mathlib

/-!
Shallow embedding of `src/prodes/prodes_para_municipios.py`, function
`processar_prodes_para`: PRODES deforestation polygons are filtered to the
state of Pará, given an integer year (directly or extracted from the
`class_name` label), spatially joined to municipality boundaries, and
aggregated per municipality and year.

Modelling conventions:
* a GeoDataFrame is a `Frame`: an explicit column-name list, an optional
  CRS tag, and a list of rows; a row carries an optional geometry and an
  association list of attribute values;
* numeric (floating-point) cells are rationals; a missing cell / NaN is
  `Value.null`;
* a geometry is abstracted by an identifier (for the `intersects`
  predicate, supplied as a relation parameter) and by its planar area in
  square meters under the fixed equal-area projection EPSG:5880, which a
  CRS change preserves;
* every `print`-and-`return` early exit of the Python function, and every
  uncaught exception it can raise, is an `Except.error` with a distinct
  tag; the one caught exception (the `try` block around the spatial join)
  is modelled by the `TryOut` outcome, with the environmental possibility
  of `gpd.sjoin` itself raising given by the `sjoinOk` flag;
* `pandas.groupby` output row order is not reproduced (the embedding keeps
  first-appearance order of keys up to `dedup`); no stated property
  depends on row order;
* the spatial join concatenates the two frames' column lists and
  attribute lists (left value first); the suffix renaming pandas applies
  when the same column name occurs on both sides is not modelled — no
  example here and no stated property has a column name shared by the two
  collections.
-/

namespace Prodes

/-- Cell value of a tabular attribute: string, integer, numeric
(floating point, modelled as a rational), or missing (NaN / None). -/
inductive Value where
  | str (s : String)
  | int (n : Int)
  | rat (q : ℚ)
  | null
deriving DecidableEq

/-- Numeric reading of a cell, as used by a pandas numeric sum:
integers and rationals are themselves, missing values count as zero
(pandas `sum` skips NaN); a string cell has no numeric reading and is
mapped to zero (no stated property rests on the string case). -/
def Value.toRat : Value → ℚ
  | .int n => (n : ℚ)
  | .rat q => q
  | _ => 0

/-- Abstract geometry: an identifier used by the `intersects` relation and
the planar area in square meters that measuring under EPSG:5880 yields. -/
structure Geom where
  gid : Nat
  area5880 : ℚ
deriving DecidableEq

/-- One row of a frame: an optional geometry plus named attribute cells. -/
structure Row where
  geom : Option Geom
  attrs : List (String × Value)
deriving DecidableEq

/-- Lookup of an attribute by column name; first binding wins, a missing
binding reads as `Value.null`. -/
def getAttr (k : String) : List (String × Value) → Value
  | [] => .null
  | (c, v) :: rest => if c = k then v else getAttr k rest

/-- Attribute access on a row. -/
def Row.get (r : Row) (k : String) : Value :=
  getAttr k r.attrs

/-- Planar EPSG:5880 area of a row's geometry (square meters); a row
without geometry measures zero. -/
def geomArea (r : Row) : ℚ :=
  match r.geom with
  | some g => g.area5880
  | none => 0

/-- A GeoDataFrame: column names, optional CRS, rows. -/
structure Frame where
  cols : List String
  crs : Option String
  rows : List Row
deriving DecidableEq

/-- Every way `processar_prodes_para` ends without a result table: each
`print`-and-`return` early exit, and each uncaught exception. -/
inductive Err where
  | missingStateColumn
  | noMatchingRegion
  | noTemporalSource
  | extractFailure
  | yearTypeError
  | crsTransformError
  | columnNotFound
  | missingAreaColumn
deriving DecidableEq

/-- Region filter, line 32 of the source:
`para_gdf = prodes_gdf[prodes_gdf['state'] == 'PA']`. -/
def filterState (f : Frame) : Frame :=
  { f with rows := f.rows.filter (fun r => decide (r.get "state" = .str "PA")) }

/-- Boundary loading outcome, lines 42-54: the caller either has no
boundary collection (load failed, `municipios_para = None`) or a frame,
which is filtered by `SIGLA_UF == 'PA'`; a frame without that column makes
the filter raise `KeyError` inside the same `try`, so it also degrades to
`None`. -/
def prepMunicipios : Option Frame → Option Frame
  | none => none
  | some m =>
    if "SIGLA_UF" ∈ m.cols then
      some { m with rows := m.rows.filter (fun r => decide (r.get "SIGLA_UF" = .str "PA")) }
    else none

/-- Value of four consecutive decimal digits at the head of a character
list, if present. -/
def fourDigitVal : List Char → Option Nat
  | a :: b :: c :: d :: _ =>
    if a.isDigit && b.isDigit && c.isDigit && d.isDigit then
      some ((((a.toNat - 48) * 10 + (b.toNat - 48)) * 10 + (c.toNat - 48)) * 10
        + (d.toNat - 48))
    else none
  | _ => none

/-- Leftmost occurrence of a lowercase letter d followed by four decimal
digits, returning the digits' value (the search semantics of
`re.search` applied to the pattern of source line 62). -/
def extractDAux : List Char → Option Nat
  | [] => none
  | c :: rest =>
    if c = 'd' then
      match fourDigitVal rest with
      | some y => some y
      | none => extractDAux rest
    else extractDAux rest

/-- Year extraction from a label, source line 62:
`.str.extract(r'd(\d{4})')` on one string. -/
def extractYear (s : String) : Option Nat :=
  extractDAux s.data

/-- Per-row effect of source line 62: the `class_name` cell must be a
string whose label matches, and the matched year is written to the `year`
column; any other outcome is a NaN that the subsequent `.astype(int)`
refuses. -/
def extractRowYear (r : Row) : Option Row :=
  match r.get "class_name" with
  | .str s =>
    match extractYear s with
    | some y => some { r with attrs := ("year", .int (y : Int)) :: r.attrs }
    | none => none
  | _ => none

/-- Extraction over all rows: `.astype(int)` raises as soon as any single
row failed to match, so one failure aborts the whole column. -/
def extractAll : List Row → Option (List Row)
  | [] => some []
  | r :: rs =>
    match extractRowYear r, extractAll rs with
    | some r2, some rs2 => some (r2 :: rs2)
    | _, _ => none

/-- Temporal step, source lines 57-66: if a `year` column exists the frame
is used as is; otherwise the year is extracted from `class_name` for every
row, or the run ends with no temporal source. -/
def tempStep (f : Frame) : Except Err Frame :=
  if "year" ∈ f.cols then .ok f
  else if "class_name" ∈ f.cols then
    match extractAll f.rows with
    | some rows => .ok { f with cols := f.cols ++ ["year"], rows := rows }
    | none => .error .extractFailure
  else .error .noTemporalSource

/-- Truth of the vectorized comparison `year >= 2008` for one cell:
integers and rationals compare, NaN compares false. A string cell makes
the whole comparison raise `TypeError`; that case is excluded before this
function is applied. -/
def yearOK (v : Value) : Bool :=
  match v with
  | .int n => decide (2008 ≤ n)
  | .rat q => decide ((2008 : ℚ) ≤ q)
  | _ => false

/-- Whether a cell is a string (the cell kind on which a pandas numeric
comparison raises `TypeError`). -/
def isStrVal (v : Value) : Bool :=
  match v with
  | .str _ => true
  | _ => false

/-- Year-floor filter, source line 69: `para_gdf[para_gdf['year'] >= 2008]`.
A string-valued year cell makes the comparison raise. -/
def floorStep (f : Frame) : Except Err Frame :=
  if f.rows.any (fun r => isStrVal (r.get "year")) then .error .yearTypeError
  else .ok { f with rows := f.rows.filter (fun r => yearOK (r.get "year")) }

/-- CRS normalization, source lines 76-78: when the two CRS tags differ,
the deforestation frame is reprojected with `to_crs` into the boundaries'
CRS, which raises when either side's CRS is undefined; equal tags — both
`none` included — pass through untouched. -/
def crsStep (f m : Frame) : Except Err Frame :=
  if f.crs = m.crs then .ok f
  else
    match f.crs, m.crs with
    | some _, some c => .ok { f with crs := some c }
    | _, _ => .error .crsTransformError

/-- Whether two rows' geometries intersect, under the abstract relation
`inter`; a missing geometry intersects nothing. -/
def geomInter (inter : Nat → Nat → Bool) (r b : Row) : Bool :=
  match r.geom, b.geom with
  | some g, some h => inter g.gid h.gid
  | _, _ => false

/-- Joined record: the left (deforestation) row's geometry, and its
attributes followed by the boundary row's attributes. -/
def joinRow (r b : Row) : Row :=
  { geom := r.geom, attrs := r.attrs ++ b.attrs }

/-- Inner spatial join on `intersects`, row part, source line 82: each left
row pairs with every boundary row it intersects. -/
def sjoinRows (inter : Nat → Nat → Bool) (mrows : List Row) : List Row → List Row
  | [] => []
  | r :: rs =>
    ((mrows.filter (fun b => geomInter inter r b)).map (fun b => joinRow r b))
      ++ sjoinRows inter mrows rs

/-- Inner spatial join, source line 82: `gpd.sjoin(para_gdf,
municipios_para, how='inner', predicate='intersects')`. -/
def sjoin (inter : Nat → Nat → Bool) (f m : Frame) : Frame :=
  { cols := f.cols ++ m.cols, crs := f.crs, rows := sjoinRows inter m.rows f.rows }

/-- Area computation applied to every joined row, source lines 89-90: the
geometry is measured under EPSG:5880 and the square meters are divided by
1,000,000. -/
def setArea (rows : List Row) : List Row :=
  rows.map (fun r =>
    { r with attrs := ("area_km", .rat (geomArea r / 1000000)) :: r.attrs })

/-- Area step, source lines 86-90: only when no `area_km` column already
exists is the area computed, via a reprojected copy (`temp_gdf`); the
frame's own CRS is left untouched. `to_crs(epsg=5880)` raises when the
frame has no CRS, which the surrounding `try` catches. -/
def ensureArea (j : Frame) : Option Frame :=
  if "area_km" ∈ j.cols then some j
  else
    match j.crs with
    | some _ => some { j with cols := j.cols ++ ["area_km"], rows := setArea j.rows }
    | none => none

/-- First element of the candidate list that occurs among the given column
names, mirroring the alias loops of source lines 98-110. -/
def findCol (cols : List String) : List String → Option String
  | [] => none
  | c :: cs => if c ∈ cols then some c else findCol cols cs

/-- Name aliases tried first for the municipality column (source line 98). -/
def nameAliases : List String := ["NM_MUN", "NOME", "NM_MUNICIP", "NOM_MUN"]

/-- Code aliases tried as fallback (source line 107). -/
def codeAliases : List String := ["CD_MUN", "COD_MUN", "GEOCODIGO"]

/-- Municipality-column resolution, source lines 97-110: the name aliases
in order, then the code aliases in order. -/
def resolveMunicipioCol (cols : List String) : Option String :=
  match findCol cols nameAliases with
  | some c => some c
  | none => findCol cols codeAliases

/-- Numeric sum of the `area_km` cells of a list of rows. -/
def sumArea (rows : List Row) : ℚ :=
  (rows.map (fun r => (r.get "area_km").toRat)).sum

/-- One output row of the normal-mode aggregation: a (municipality value,
year value) key together with the group's summed area. -/
def pairRow (j : Frame) (mcol : String) (k : Value × Value) : Row :=
  { geom := none,
    attrs := [(mcol, k.1), ("year", k.2),
      ("area_km", .rat (sumArea (j.rows.filter
        (fun r => decide ((r.get mcol, r.get "year") = k)))))] }

/-- Normal-mode aggregation, source line 114:
`groupby([municipio_col, 'year'])['area_km'].sum().reset_index()` — one
row per distinct (municipality value, year value) pair, with the group's
summed area. -/
def groupby2 (j : Frame) (mcol : String) : Frame :=
  { cols := [mcol, "year", "area_km"], crs := none,
    rows := ((j.rows.map (fun r => (r.get mcol, r.get "year"))).dedup).map
      (pairRow j mcol) }

/-- One output row of the year-only aggregation: a year key, the summed
area of that year's group, and the sentinel municipality. -/
def yearRow (f : Frame) (y : Value) : Row :=
  { geom := none,
    attrs := [("year", y),
      ("area_km", .rat (sumArea (f.rows.filter
        (fun r => decide (r.get "year" = y))))),
      ("municipio", .str "DESCONHECIDO")] }

/-- Year-only aggregation, source lines 122-123 and 127-128:
`groupby('year')['area_km'].sum().reset_index()` followed by
`resultado['municipio'] = 'DESCONHECIDO'`. -/
def groupbyYear (f : Frame) : Frame :=
  { cols := ["year", "area_km", "municipio"], crs := none,
    rows := ((f.rows.map (fun r => r.get "year")).dedup).map (yearRow f) }

/-- Degraded aggregation path: selecting `['area_km']` from the year
groupby raises `KeyError` when the feature frame carries no such column —
and on the join-failure route that `KeyError` is raised inside the
`except` handler, hence uncaught. -/
def degradedAgg (f : Frame) : Except Err Frame :=
  if "area_km" ∈ f.cols then .ok (groupbyYear f) else .error .missingAreaColumn

/-- Outcome of the `try` block of source lines 81-118: a result table, the
`return None` exit when no municipality column resolves (a plain `return`
inside `try`, not an exception), or an exception reaching the `except`
handler. -/
inductive TryOut where
  | ok (res : Frame)
  | columnNotFound
  | exc
deriving DecidableEq

/-- The `try` block, source lines 81-118: the spatial join (which may
itself raise — `sjoinOk` false), the area step (whose `to_crs` raises on a
CRS-less frame), municipality-column resolution, and the grouped
aggregation. -/
def tryJoinBlock (inter : Nat → Nat → Bool) (sjoinOk : Bool) (para mun : Frame) :
    TryOut :=
  if sjoinOk then
    match ensureArea (sjoin inter para mun) with
    | none => .exc
    | some j2 =>
      match resolveMunicipioCol j2.cols with
      | some mcol => .ok (groupby2 j2 mcol)
      | none => .columnNotFound
  else .exc

/-- Join phase when a boundary frame is available, source lines 73-123:
CRS normalization (uncaught when it raises), then the `try` block; an
exception there falls to the degraded year-only aggregation over the
(reprojected, floored) feature frame. -/
def joinPhase (inter : Nat → Nat → Bool) (sjoinOk : Bool) (p2 mp : Frame) :
    Except Err Frame :=
  match crsStep p2 mp with
  | .error e => .error e
  | .ok p3 =>
    match tryJoinBlock inter sjoinOk p3 mp with
    | .ok res => .ok res
    | .columnNotFound => .error .columnNotFound
    | .exc => degradedAgg p3

/-- The whole of `processar_prodes_para` (source lines 6-134) on in-memory
collections: state-column check, Pará filter, empty-region exit, boundary
preparation, temporal step, year floor, then either the join phase or the
degraded year-only aggregation. -/
def processar_prodes_para (prodes : Frame) (municipios : Option Frame)
    (inter : Nat → Nat → Bool) (sjoinOk : Bool) : Except Err Frame :=
  if "state" ∈ prodes.cols then
    if (filterState prodes).rows.isEmpty then .error .noMatchingRegion
    else
      match tempStep (filterState prodes) with
      | .error e => .error e
      | .ok p1 =>
        match floorStep p1 with
        | .error e => .error e
        | .ok p2 =>
          match prepMunicipios municipios with
          | some mp => joinPhase inter sjoinOk p2 mp
          | none => degradedAgg p2
  else .error .missingStateColumn

/-! Helper notions and lemmas used by the verification below. -/

/-- Truth of the year-floor comparison, as a proposition. -/
def yearGE2008 : Value → Prop
  | .int n => 2008 ≤ n
  | .rat q => (2008 : ℚ) ≤ q
  | _ => False

/-- Row invariant propagated for the area bound: a nonnegative `area_km`
cell (a missing cell reads as zero) and a nonnegative geometry measure. -/
def AreaOK (r : Row) : Prop :=
  0 ≤ (r.get "area_km").toRat ∧ 0 ≤ geomArea r

instance (r : Row) : Decidable (AreaOK r) :=
  inferInstanceAs (Decidable (0 ≤ (r.get "area_km").toRat ∧ 0 ≤ geomArea r))

/-- Whether an association list binds a column name. -/
def hasKey (k : String) : List (String × Value) → Bool
  | [] => false
  | (c, _) :: rest => decide (c = k) || hasKey k rest

/-! Concrete example collections used by witnesses and counterexamples. -/

/-- Intersects-relation under which every geometry pair intersects. -/
def interAll : Nat → Nat → Bool := fun _ _ => true

/-- Pará feature, year 2010, pre-existing area 5 km², geometry measuring
3,000,000 m² (3 km²) under EPSG:5880. -/
def rowPA2010 : Row :=
  { geom := some { gid := 0, area5880 := 3000000 },
    attrs := [("state", .str "PA"), ("year", .int 2010), ("area_km", .rat 5)] }

/-- Pará feature, year 2009, pre-existing area 7 km². -/
def rowPA2009 : Row :=
  { geom := some { gid := 1, area5880 := 2000000 },
    attrs := [("state", .str "PA"), ("year", .int 2009), ("area_km", .rat 7)] }

/-- Feature of another state, filtered out by the region filter. -/
def rowSP2010 : Row :=
  { geom := some { gid := 2, area5880 := 1000000 },
    attrs := [("state", .str "SP"), ("year", .int 2010), ("area_km", .rat 9)] }

/-- Deforestation collection with a direct year column and a pre-existing
area column. -/
def exPara : Frame :=
  { cols := ["state", "year", "area_km"], crs := some "EPSG:4674",
    rows := [rowPA2010, rowPA2009, rowSP2010] }

/-- The Pará-filtered, year-floored version of `exPara`, as the pipeline
produces it before aggregation. -/
def exP2 : Frame :=
  { cols := ["state", "year", "area_km"], crs := some "EPSG:4674",
    rows := [rowPA2010, rowPA2009] }

/-- One municipality boundary row (Belém). -/
def rowBelem : Row :=
  { geom := some { gid := 10, area5880 := 0 },
    attrs := [("SIGLA_UF", .str "PA"), ("NM_MUN", .str "Belem")] }

/-- Boundary collection with a resolvable name column. -/
def exMun : Frame :=
  { cols := ["SIGLA_UF", "NM_MUN"], crs := some "EPSG:4674", rows := [rowBelem] }

/-- Boundary row carrying no name or code column. -/
def rowBelemBare : Row :=
  { geom := some { gid := 10, area5880 := 0 },
    attrs := [("SIGLA_UF", .str "PA")] }

/-- Boundary collection in which no municipality alias resolves. -/
def exMunBare : Frame :=
  { cols := ["SIGLA_UF"], crs := some "EPSG:4674", rows := [rowBelemBare] }

/-- Pará feature without a pre-existing area column, year 2010. -/
def rowNA2010 : Row :=
  { geom := some { gid := 0, area5880 := 3000000 },
    attrs := [("state", .str "PA"), ("year", .int 2010)] }

/-- Pará feature without a pre-existing area column, year 2009. -/
def rowNA2009 : Row :=
  { geom := some { gid := 1, area5880 := 2000000 },
    attrs := [("state", .str "PA"), ("year", .int 2009)] }

/-- Deforestation collection with a year column but no area column. -/
def exParaNoArea : Frame :=
  { cols := ["state", "year"], crs := some "EPSG:4674",
    rows := [rowNA2010, rowNA2009] }

/-- Feature whose label matches the extraction pattern. -/
def rowLblGood : Row :=
  { geom := some { gid := 0, area5880 := 3000000 },
    attrs := [("state", .str "PA"), ("class_name", .str "d2019_valid"),
      ("area_km", .rat 4)] }

/-- Feature whose label (no leading letter d) does not match. -/
def rowLblBad : Row :=
  { geom := some { gid := 1, area5880 := 2000000 },
    attrs := [("state", .str "PA"), ("class_name", .str "2019"),
      ("area_km", .rat 6)] }

/-- Deforestation collection with labels only: one matching, one not. -/
def exParaLabels : Frame :=
  { cols := ["state", "class_name", "area_km"], crs := some "EPSG:4674",
    rows := [rowLblGood, rowLblBad] }

/-- Deforestation collection whose labels all match. -/
def exParaLabelsGood : Frame :=
  { cols := ["state", "class_name", "area_km"], crs := some "EPSG:4674",
    rows := [rowLblGood] }

/-- Feature with a string-valued direct year cell. -/
def rowStrYear : Row :=
  { geom := some { gid := 3, area5880 := 1000000 },
    attrs := [("state", .str "PA"), ("year", .str "abc"), ("area_km", .rat 2)] }

/-- Deforestation collection whose year column holds one numeric and one
string value. -/
def exParaStr : Frame :=
  { cols := ["state", "year", "area_km"], crs := some "EPSG:4674",
    rows := [rowPA2010, rowStrYear] }

/-- Feature with a negative pre-existing area value. -/
def rowNegArea : Row :=
  { geom := some { gid := 0, area5880 := 3000000 },
    attrs := [("state", .str "PA"), ("year", .int 2010), ("area_km", .rat (-5))] }

/-- Deforestation collection carrying a negative pre-existing area. -/
def exParaNeg : Frame :=
  { cols := ["state", "year", "area_km"], crs := some "EPSG:4674",
    rows := [rowNegArea] }

/-- Deforestation collection with no feature of the target region. -/
def exParaSP : Frame :=
  { cols := ["state", "year", "area_km"], crs := some "EPSG:4674",
    rows := [rowSP2010] }

/-- Deforestation collection without a defined CRS. -/
def exParaCrsNone : Frame := { exPara with crs := none }

/-- Boundary collection without a defined CRS. -/
def exMunCrsNone : Frame := { exMun with crs := none }

/-- Boundary collection with a different defined CRS. -/
def exMunCrs5880 : Frame := { exMun with crs := some "EPSG:5880" }

/-- Deforestation collection whose year column holds a missing value while
the label would match the pattern. -/
def exParaNullYear : Frame :=
  { cols := ["state", "year", "class_name"], crs := some "EPSG:4674",
    rows := [ { geom := some { gid := 0, area5880 := 3000000 },
                attrs := [("state", .str "PA"), ("year", .null),
                  ("class_name", .str "d2019_valid")] } ] }

theorem yearOK_iff (v : Value) : yearOK v = true ↔ yearGE2008 v := by
  cases v <;> simp [yearOK, yearGE2008]

theorem getAttr_cons_eq (k : String) (v : Value) (l : List (String × Value)) :
    getAttr k ((k, v) :: l) = v := by
  simp [getAttr]

theorem getAttr_cons_ne (c k : String) (v : Value) (l : List (String × Value))
    (h : c ≠ k) : getAttr k ((c, v) :: l) = getAttr k l := by
  simp [getAttr, h]

theorem getAttr_append (k : String) (l1 l2 : List (String × Value)) :
    getAttr k (l1 ++ l2) =
      if hasKey k l1 then getAttr k l1 else getAttr k l2 := by
  induction l1 with
  | nil => simp [hasKey]
  | cons p rest ih =>
    obtain ⟨c, v⟩ := p
    by_cases hc : c = k
    · subst hc
      simp [getAttr, hasKey]
    · simp [getAttr, hasKey, hc, ih]

theorem getAttr_of_hasKey_false (k : String) (l : List (String × Value))
    (h : hasKey k l = false) : getAttr k l = .null := by
  induction l with
  | nil => rfl
  | cons p rest ih =>
    obtain ⟨c, v⟩ := p
    simp [hasKey, Bool.or_eq_false_iff] at h
    simp [getAttr, h.1, ih h.2]

theorem joinRow_get_of_yearGE (r b : Row) (h : yearGE2008 (r.get "year")) :
    (joinRow r b).get "year" = r.get "year" := by
  show getAttr "year" (r.attrs ++ b.attrs) = r.get "year"
  rw [getAttr_append]
  cases hk : hasKey "year" r.attrs with
  | true => simp [Row.get]
  | false =>
    exfalso
    have : r.get "year" = .null := getAttr_of_hasKey_false _ _ hk
    rw [this] at h
    exact h

theorem joinRow_toRat_nonneg (r b : Row)
    (hr : 0 ≤ (r.get "area_km").toRat) (hb : 0 ≤ (b.get "area_km").toRat) :
    0 ≤ ((joinRow r b).get "area_km").toRat := by
  show 0 ≤ (getAttr "area_km" (r.attrs ++ b.attrs)).toRat
  rw [getAttr_append]
  cases hasKey "area_km" r.attrs <;> simpa

theorem sumArea_nonneg (rows : List Row)
    (h : ∀ r ∈ rows, 0 ≤ (r.get "area_km").toRat) : 0 ≤ sumArea rows := by
  apply List.sum_nonneg
  intro x hx
  rcases List.mem_map.1 hx with ⟨r, hr, rfl⟩
  exact h r hr

theorem findCol_eq_find? (cols l : List String) :
    findCol cols l = l.find? (fun a => decide (a ∈ cols)) := by
  induction l with
  | nil => rfl
  | cons c cs ih =>
    by_cases hc : c ∈ cols <;> simp [findCol, List.find?, hc, ih]

theorem findCol_append (cols l1 l2 : List String) :
    findCol cols (l1 ++ l2) =
      match findCol cols l1 with
      | some c => some c
      | none => findCol cols l2 := by
  induction l1 with
  | nil => rfl
  | cons c cs ih =>
    by_cases hc : c ∈ cols <;> simp [findCol, hc, ih]

theorem findCol_mem (cols l : List String) (c : String)
    (h : findCol cols l = some c) : c ∈ l ∧ c ∈ cols := by
  induction l with
  | nil => simp [findCol] at h
  | cons a as ih =>
    by_cases ha : a ∈ cols
    · simp [findCol, ha] at h
      subst h
      exact ⟨List.mem_cons_self _ _, ha⟩
    · simp [findCol, ha] at h
      rcases ih h with ⟨h1, h2⟩
      exact ⟨List.mem_cons_of_mem _ h1, h2⟩

theorem findCol_eq_none (cols l : List String) :
    findCol cols l = none ↔ ∀ a ∈ l, a ∉ cols := by
  induction l with
  | nil => simp [findCol]
  | cons c cs ih =>
    by_cases hc : c ∈ cols <;> simp [findCol, hc, ih]

theorem resolveMunicipioCol_eq_findCol (cols : List String) :
    resolveMunicipioCol cols = findCol cols (nameAliases ++ codeAliases) := by
  rw [resolveMunicipioCol, findCol_append]

theorem resolveMunicipioCol_mem (cols : List String) (c : String)
    (h : resolveMunicipioCol cols = some c) :
    c ∈ nameAliases ++ codeAliases ∧ c ∈ cols := by
  rw [resolveMunicipioCol_eq_findCol] at h
  exact findCol_mem _ _ _ h

theorem resolveMunicipioCol_ne (cols : List String) (c : String)
    (h : resolveMunicipioCol cols = some c) : c ≠ "year" ∧ c ≠ "area_km" := by
  rcases resolveMunicipioCol_mem cols c h with ⟨hmem, -⟩
  simp [nameAliases, codeAliases] at hmem
  rcases hmem with rfl | rfl | rfl | rfl | rfl | rfl | rfl <;> exact ⟨by decide, by decide⟩

theorem extractRowYear_some (r r2 : Row) (h : extractRowYear r = some r2) :
    r2.geom = r.geom ∧ r2.get "area_km" = r.get "area_km" ∧
      ∃ s y, r.get "class_name" = .str s ∧ extractYear s = some y ∧
        r2.get "year" = .int (y : Int) := by
  unfold extractRowYear at h
  cases hc : r.get "class_name" with
  | str s =>
    rw [hc] at h
    dsimp only at h
    cases he : extractYear s with
    | some y =>
      rw [he] at h
      dsimp only at h
      cases h
      refine ⟨rfl, ?_, s, y, rfl, he, ?_⟩
      · exact getAttr_cons_ne "year" "area_km" _ _ (by decide)
      · exact getAttr_cons_eq "year" _ _
    | none => rw [he] at h; cases h
  | int n => rw [hc] at h; cases h
  | rat q => rw [hc] at h; cases h
  | null => rw [hc] at h; cases h

theorem extractAll_mem (rs rs2 : List Row) (h : extractAll rs = some rs2)
    (r2 : Row) (hm : r2 ∈ rs2) : ∃ r ∈ rs, extractRowYear r = some r2 := by
  induction rs generalizing rs2 with
  | nil =>
    unfold extractAll at h
    cases h
    cases hm
  | cons r rest ih =>
    unfold extractAll at h
    cases h1 : extractRowYear r with
    | some ra =>
      rw [h1] at h
      cases h2 : extractAll rest with
      | some rb =>
        rw [h2] at h
        cases h
        rcases List.mem_cons.1 hm with rfl | hm2
        · exact ⟨r, List.mem_cons_self _ _, h1⟩
        · rcases ih _ h2 hm2 with ⟨r0, hr0, he⟩
          exact ⟨r0, List.mem_cons_of_mem _ hr0, he⟩
      | none => rw [h2] at h; cases h
    | none => rw [h1] at h; cases h

theorem extractAll_forall₂ (rs rs2 : List Row) (h : extractAll rs = some rs2) :
    List.Forall₂ (fun r r2 => extractRowYear r = some r2) rs rs2 := by
  induction rs generalizing rs2 with
  | nil =>
    unfold extractAll at h
    cases h
    exact List.Forall₂.nil
  | cons r rest ih =>
    unfold extractAll at h
    cases h1 : extractRowYear r with
    | some ra =>
      rw [h1] at h
      cases h2 : extractAll rest with
      | some rb =>
        rw [h2] at h
        cases h
        exact List.Forall₂.cons h1 (ih _ h2)
      | none => rw [h2] at h; cases h
    | none => rw [h1] at h; cases h

theorem extractAll_none_of_bad (rs : List Row) (r : Row) (hm : r ∈ rs)
    (hbad : extractRowYear r = none) : extractAll rs = none := by
  induction rs with
  | nil => cases hm
  | cons a rest ih =>
    rcases List.mem_cons.1 hm with rfl | hm2
    · unfold extractAll
      rw [hbad]
    · unfold extractAll
      rw [ih hm2]
      cases extractRowYear a <;> rfl

theorem tempStep_mem (f g : Frame) (h : tempStep f = .ok g) (r2 : Row)
    (hm : r2 ∈ g.rows) :
    r2 ∈ f.rows ∨ ∃ r ∈ f.rows, extractRowYear r = some r2 := by
  unfold tempStep at h
  by_cases hy : "year" ∈ f.cols
  · rw [if_pos hy] at h
    cases h
    exact Or.inl hm
  · rw [if_neg hy] at h
    by_cases hc : "class_name" ∈ f.cols
    · rw [if_pos hc] at h
      cases hall : extractAll f.rows with
      | some rows2 =>
        rw [hall] at h
        cases h
        exact Or.inr (extractAll_mem _ _ hall _ hm)
      | none => rw [hall] at h; cases h
    · rw [if_neg hc] at h
      cases h

theorem tempStep_cols (f g : Frame) (h : tempStep f = .ok g) :
    g.cols = f.cols ∨ g.cols = f.cols ++ ["year"] := by
  unfold tempStep at h
  by_cases hy : "year" ∈ f.cols
  · rw [if_pos hy] at h
    cases h
    exact Or.inl rfl
  · rw [if_neg hy] at h
    by_cases hc : "class_name" ∈ f.cols
    · rw [if_pos hc] at h
      cases hall : extractAll f.rows with
      | some rows2 =>
        rw [hall] at h
        cases h
        exact Or.inr rfl
      | none => rw [hall] at h; cases h
    · rw [if_neg hc] at h
      cases h

theorem floorStep_ok (f g : Frame) (h : floorStep f = .ok g) :
    g = { f with rows := f.rows.filter (fun r => yearOK (r.get "year")) } := by
  unfold floorStep at h
  by_cases hs : f.rows.any (fun r => isStrVal (r.get "year"))
  · rw [if_pos hs] at h
    cases h
  · rw [if_neg hs] at h
    cases h
    rfl

theorem floorStep_mem (f g : Frame) (h : floorStep f = .ok g) (r : Row)
    (hm : r ∈ g.rows) : r ∈ f.rows ∧ yearGE2008 (r.get "year") := by
  rw [floorStep_ok f g h] at hm
  simp only [List.mem_filter] at hm
  exact ⟨hm.1, (yearOK_iff _).1 hm.2⟩

theorem crsStep_ok (f m g : Frame) (h : crsStep f m = .ok g) :
    g.rows = f.rows ∧ g.cols = f.cols := by
  unfold crsStep at h
  by_cases he : f.crs = m.crs
  · rw [if_pos he] at h
    cases h
    exact ⟨rfl, rfl⟩
  · rw [if_neg he] at h
    cases hf : f.crs with
    | some a =>
      cases hm : m.crs with
      | some c =>
        rw [hf, hm] at h
        cases h
        exact ⟨rfl, rfl⟩
      | none => rw [hf, hm] at h; cases h
    | none =>
      rw [hf] at h
      cases m.crs <;> cases h

theorem prepMunicipios_mem (mo : Option Frame) (mp : Frame)
    (h : prepMunicipios mo = some mp) (b : Row) (hb : b ∈ mp.rows) :
    ∃ m, mo = some m ∧ b ∈ m.rows := by
  cases mo with
  | none => cases h
  | some m =>
    unfold prepMunicipios at h
    dsimp only at h
    by_cases hc : "SIGLA_UF" ∈ m.cols
    · rw [if_pos hc] at h
      cases h
      simp only [List.mem_filter] at hb
      exact ⟨m, rfl, hb.1⟩
    · rw [if_neg hc] at h
      cases h

theorem sjoinRows_mem (inter : Nat → Nat → Bool) (mrows frows : List Row)
    (r2 : Row) (h : r2 ∈ sjoinRows inter mrows frows) :
    ∃ r ∈ frows, ∃ b ∈ mrows, r2 = joinRow r b := by
  induction frows with
  | nil => cases h
  | cons r rest ih =>
    unfold sjoinRows at h
    rcases List.mem_append.1 h with h1 | h2
    · rcases List.mem_map.1 h1 with ⟨b, hb, rfl⟩
      exact ⟨r, List.mem_cons_self _ _, b, (List.mem_filter.1 hb).1, rfl⟩
    · rcases ih h2 with ⟨r0, hr0, b, hb, rfl⟩
      exact ⟨r0, List.mem_cons_of_mem _ hr0, b, hb, rfl⟩

theorem setArea_mem (rows : List Row) (r2 : Row) (h : r2 ∈ setArea rows) :
    ∃ r ∈ rows,
      r2 = { r with attrs := ("area_km", .rat (geomArea r / 1000000)) :: r.attrs } := by
  rcases List.mem_map.1 h with ⟨r, hr, rfl⟩
  exact ⟨r, hr, rfl⟩

theorem ensureArea_cases (j j2 : Frame) (h : ensureArea j = some j2) :
    ("area_km" ∈ j.cols ∧ j2 = j) ∨
      ("area_km" ∉ j.cols ∧
        j2 = { j with cols := j.cols ++ ["area_km"], rows := setArea j.rows }) := by
  unfold ensureArea at h
  by_cases hc : "area_km" ∈ j.cols
  · rw [if_pos hc] at h
    cases h
    exact Or.inl ⟨hc, rfl⟩
  · rw [if_neg hc] at h
    cases hcrs : j.crs with
    | some c =>
      rw [hcrs] at h
      cases h
      exact Or.inr ⟨hc, rfl⟩
    | none => rw [hcrs] at h; cases h

theorem pairRow_get_mcol (j : Frame) (mcol : String) (k : Value × Value) :
    (pairRow j mcol k).get mcol = k.1 :=
  getAttr_cons_eq mcol _ _

theorem pairRow_get_year (j : Frame) (mcol : String) (k : Value × Value)
    (h : mcol ≠ "year") : (pairRow j mcol k).get "year" = k.2 := by
  simp only [Row.get, pairRow]
  rw [getAttr_cons_ne mcol "year" _ _ h, getAttr_cons_eq]

theorem pairRow_get_area (j : Frame) (mcol : String) (k : Value × Value)
    (h : mcol ≠ "area_km") :
    (pairRow j mcol k).get "area_km" =
      .rat (sumArea (j.rows.filter
        (fun r => decide ((r.get mcol, r.get "year") = k)))) := by
  simp only [Row.get, pairRow]
  rw [getAttr_cons_ne mcol "area_km" _ _ h,
    getAttr_cons_ne "year" "area_km" _ _ (by decide), getAttr_cons_eq]

theorem yearRow_get_year (f : Frame) (y : Value) : (yearRow f y).get "year" = y :=
  getAttr_cons_eq "year" _ _

theorem yearRow_get_area (f : Frame) (y : Value) :
    (yearRow f y).get "area_km" =
      .rat (sumArea (f.rows.filter (fun r => decide (r.get "year" = y)))) := by
  simp only [Row.get, yearRow]
  rw [getAttr_cons_ne "year" "area_km" _ _ (by decide), getAttr_cons_eq]

theorem processar_ok_cases (prodes : Frame) (municipios : Option Frame)
    (inter : Nat → Nat → Bool) (sjoinOk : Bool) (res : Frame)
    (h : processar_prodes_para prodes municipios inter sjoinOk = .ok res) :
    ∃ p1 p2, "state" ∈ prodes.cols ∧
      tempStep (filterState prodes) = .ok p1 ∧ floorStep p1 = .ok p2 ∧
      ((∃ mp p3 j2 mcol, prepMunicipios municipios = some mp ∧
          crsStep p2 mp = .ok p3 ∧ sjoinOk = true ∧
          ensureArea (sjoin inter p3 mp) = some j2 ∧
          resolveMunicipioCol j2.cols = some mcol ∧ res = groupby2 j2 mcol) ∨
       (∃ pd, pd.rows = p2.rows ∧ "area_km" ∈ pd.cols ∧ res = groupbyYear pd)) := by
  unfold processar_prodes_para at h
  by_cases hs : "state" ∈ prodes.cols
  swap
  · rw [if_neg hs] at h
    cases h
  rw [if_pos hs] at h
  by_cases hne : (filterState prodes).rows.isEmpty
  · rw [if_pos hne] at h
    cases h
  rw [if_neg hne] at h
  cases ht : tempStep (filterState prodes) with
  | error e => rw [ht] at h; cases h
  | ok p1 =>
    rw [ht] at h
    dsimp only at h
    cases hf : floorStep p1 with
    | error e => rw [hf] at h; cases h
    | ok p2 =>
      rw [hf] at h
      dsimp only at h
      refine ⟨p1, p2, hs, rfl, hf, ?_⟩
      cases hp : prepMunicipios municipios with
      | none =>
        rw [hp] at h
        dsimp only at h
        unfold degradedAgg at h
        by_cases ha : "area_km" ∈ p2.cols
        · rw [if_pos ha] at h
          cases h
          exact Or.inr ⟨p2, rfl, ha, rfl⟩
        · rw [if_neg ha] at h
          cases h
      | some mp =>
        rw [hp] at h
        dsimp only at h
        unfold joinPhase at h
        cases hc : crsStep p2 mp with
        | error e => rw [hc] at h; cases h
        | ok p3 =>
          rw [hc] at h
          dsimp only at h
          cases htb : tryJoinBlock inter sjoinOk p3 mp with
          | ok r0 =>
            rw [htb] at h
            dsimp only at h
            cases h
            unfold tryJoinBlock at htb
            cases sjoinOk with
            | false => cases htb
            | true =>
              rw [if_pos rfl] at htb
              cases hea : ensureArea (sjoin inter p3 mp) with
              | none => rw [hea] at htb; cases htb
              | some j2 =>
                rw [hea] at htb
                dsimp only at htb
                cases hr : resolveMunicipioCol j2.cols with
                | none => rw [hr] at htb; cases htb
                | some mcol =>
                  rw [hr] at htb
                  dsimp only at htb
                  cases htb
                  exact Or.inl ⟨mp, p3, j2, mcol, rfl, hc, rfl, hea, hr, rfl⟩
          | columnNotFound => rw [htb] at h; cases h
          | exc =>
            rw [htb] at h
            dsimp only at h
            unfold degradedAgg at h
            by_cases ha : "area_km" ∈ p3.cols
            · rw [if_pos ha] at h
              cases h
              exact Or.inr ⟨p3, (crsStep_ok _ _ _ hc).1, ha, rfl⟩
            · rw [if_neg ha] at h
              cases h

theorem yearRow_get_mun (f : Frame) (y : Value) :
    (yearRow f y).get "municipio" = .str "DESCONHECIDO" := by
  simp only [Row.get, yearRow]
  rw [getAttr_cons_ne "year" "municipio" _ _ (by decide),
    getAttr_cons_ne "area_km" "municipio" _ _ (by decide), getAttr_cons_eq]

theorem geomArea_congr (r r2 : Row) (h : r2.geom = r.geom) :
    geomArea r2 = geomArea r := by
  unfold geomArea
  rw [h]

theorem tempStep_areaOK (f g : Frame) (h : tempStep f = .ok g)
    (hf : ∀ r ∈ f.rows, AreaOK r) : ∀ r2 ∈ g.rows, AreaOK r2 := by
  intro r2 hm
  rcases tempStep_mem f g h r2 hm with h1 | ⟨r, hr, he⟩
  · exact hf _ h1
  · rcases extractRowYear_some r r2 he with ⟨hg, ha, -⟩
    rcases hf r hr with ⟨h1, h2⟩
    exact ⟨by rw [ha]; exact h1, by rw [geomArea_congr r r2 hg]; exact h2⟩

theorem filterState_areaOK (f : Frame) (hf : ∀ r ∈ f.rows, AreaOK r) :
    ∀ r ∈ (filterState f).rows, AreaOK r := by
  intro r hm
  exact hf r (List.mem_filter.1 hm).1

theorem sjoin_rows_year (inter : Nat → Nat → Bool) (p3 mp : Frame)
    (hY : ∀ r ∈ p3.rows, yearGE2008 (r.get "year")) :
    ∀ r2 ∈ (sjoin inter p3 mp).rows, yearGE2008 (r2.get "year") := by
  intro r2 hm
  rcases sjoinRows_mem inter mp.rows p3.rows r2 hm with ⟨r, hr, b, hb, rfl⟩
  rw [joinRow_get_of_yearGE r b (hY r hr)]
  exact hY r hr

theorem sjoin_rows_areaOK (inter : Nat → Nat → Bool) (p3 mp : Frame)
    (hA : ∀ r ∈ p3.rows, AreaOK r)
    (hB : ∀ b ∈ mp.rows, 0 ≤ (b.get "area_km").toRat) :
    ∀ r2 ∈ (sjoin inter p3 mp).rows, AreaOK r2 := by
  intro r2 hm
  rcases sjoinRows_mem inter mp.rows p3.rows r2 hm with ⟨r, hr, b, hb, rfl⟩
  refine ⟨joinRow_toRat_nonneg r b (hA r hr).1 (hB b hb), ?_⟩
  rw [geomArea_congr r (joinRow r b) rfl]
  exact (hA r hr).2

theorem ensureArea_rows_year (j j2 : Frame) (h : ensureArea j = some j2)
    (hY : ∀ r ∈ j.rows, yearGE2008 (r.get "year")) :
    ∀ r2 ∈ j2.rows, yearGE2008 (r2.get "year") := by
  intro r2 hm
  rcases ensureArea_cases j j2 h with ⟨-, rfl⟩ | ⟨-, rfl⟩
  · exact hY r2 hm
  · rcases setArea_mem j.rows r2 hm with ⟨r, hr, rfl⟩
    show yearGE2008 (getAttr "year" _)
    rw [getAttr_cons_ne "area_km" "year" _ _ (by decide)]
    exact hY r hr

theorem ensureArea_rows_area (j j2 : Frame) (h : ensureArea j = some j2)
    (hA : ∀ r ∈ j.rows, AreaOK r) :
    ∀ r2 ∈ j2.rows, 0 ≤ (r2.get "area_km").toRat := by
  intro r2 hm
  rcases ensureArea_cases j j2 h with ⟨-, rfl⟩ | ⟨-, rfl⟩
  · exact (hA r2 hm).1
  · rcases setArea_mem j.rows r2 hm with ⟨r, hr, rfl⟩
    show 0 ≤ (getAttr "area_km" _).toRat
    rw [getAttr_cons_eq]
    exact div_nonneg (hA r hr).2 (by norm_num)

theorem groupby2_rows_mem (j : Frame) (mcol : String) (r2 : Row)
    (h : r2 ∈ (groupby2 j mcol).rows) :
    ∃ k ∈ (j.rows.map (fun r => (r.get mcol, r.get "year"))).dedup,
      r2 = pairRow j mcol k := by
  rcases List.mem_map.1 h with ⟨k, hk, rfl⟩
  exact ⟨k, hk, rfl⟩

theorem groupby2_year (j : Frame) (mcol : String) (hm : mcol ≠ "year")
    (hY : ∀ r ∈ j.rows, yearGE2008 (r.get "year")) :
    ∀ r2 ∈ (groupby2 j mcol).rows, yearGE2008 (r2.get "year") := by
  intro r2 h2
  rcases groupby2_rows_mem j mcol r2 h2 with ⟨k, hk, rfl⟩
  rw [pairRow_get_year j mcol k hm]
  rcases List.mem_map.1 (List.mem_dedup.1 hk) with ⟨r, hr, rfl⟩
  exact hY r hr

theorem groupby2_area (j : Frame) (mcol : String) (hmc : mcol ≠ "area_km")
    (hA : ∀ r ∈ j.rows, 0 ≤ (r.get "area_km").toRat) :
    ∀ r2 ∈ (groupby2 j mcol).rows, 0 ≤ (r2.get "area_km").toRat := by
  intro r2 h2
  rcases groupby2_rows_mem j mcol r2 h2 with ⟨k, hk, rfl⟩
  rw [pairRow_get_area j mcol k hmc]
  exact sumArea_nonneg _ (fun r hr => hA r (List.mem_filter.1 hr).1)

theorem groupbyYear_rows_mem (f : Frame) (r2 : Row)
    (h : r2 ∈ (groupbyYear f).rows) :
    ∃ y ∈ (f.rows.map (fun r => r.get "year")).dedup, r2 = yearRow f y := by
  rcases List.mem_map.1 h with ⟨y, hy, rfl⟩
  exact ⟨y, hy, rfl⟩

theorem groupbyYear_year (f : Frame)
    (hY : ∀ r ∈ f.rows, yearGE2008 (r.get "year")) :
    ∀ r2 ∈ (groupbyYear f).rows, yearGE2008 (r2.get "year") := by
  intro r2 h2
  rcases groupbyYear_rows_mem f r2 h2 with ⟨y, hy, rfl⟩
  rw [yearRow_get_year]
  rcases List.mem_map.1 (List.mem_dedup.1 hy) with ⟨r, hr, rfl⟩
  exact hY r hr

theorem groupbyYear_area (f : Frame)
    (hA : ∀ r ∈ f.rows, 0 ≤ (r.get "area_km").toRat) :
    ∀ r2 ∈ (groupbyYear f).rows, 0 ≤ (r2.get "area_km").toRat := by
  intro r2 h2
  rcases groupbyYear_rows_mem f r2 h2 with ⟨y, hy, rfl⟩
  rw [yearRow_get_area]
  exact sumArea_nonneg _ (fun r hr => hA r (List.mem_filter.1 hr).1)

theorem groupbyYear_map_year (f : Frame) :
    (groupbyYear f).rows.map (fun r => r.get "year") =
      (f.rows.map (fun r => r.get "year")).dedup := by
  show ((f.rows.map (fun r => r.get "year")).dedup.map (yearRow f)).map
      (fun r => r.get "year") = _
  rw [List.map_map]
  have : ((fun r : Row => r.get "year") ∘ yearRow f) = id := by
    funext y
    exact yearRow_get_year f y
  rw [this, List.map_id]

theorem processar_none_route (prodes : Frame) (inter : Nat → Nat → Bool)
    (sjoinOk : Bool) (p1 p2 : Frame)
    (hs : "state" ∈ prodes.cols) (hne : ¬(filterState prodes).rows.isEmpty)
    (ht : tempStep (filterState prodes) = .ok p1) (hf : floorStep p1 = .ok p2) :
    processar_prodes_para prodes none inter sjoinOk = degradedAgg p2 := by
  unfold processar_prodes_para
  rw [if_pos hs, if_neg hne, ht]
  dsimp only
  rw [hf]
  rfl

theorem processar_joinfail_route (prodes m : Frame) (inter : Nat → Nat → Bool)
    (p1 p2 mp p3 : Frame)
    (hs : "state" ∈ prodes.cols) (hne : ¬(filterState prodes).rows.isEmpty)
    (ht : tempStep (filterState prodes) = .ok p1) (hf : floorStep p1 = .ok p2)
    (hp : prepMunicipios (some m) = some mp) (hc : crsStep p2 mp = .ok p3) :
    processar_prodes_para prodes (some m) inter false = degradedAgg p3 := by
  unfold processar_prodes_para
  rw [if_pos hs, if_neg hne, ht]
  dsimp only
  rw [hf]
  dsimp only
  rw [hp]
  dsimp only
  unfold joinPhase
  rw [hc]
  dsimp only
  have htb : tryJoinBlock inter false p3 mp = .exc := by
    unfold tryJoinBlock
    rw [if_neg (by simp)]
  rw [htb]

/-! Counterexample runs for the corrected claims. -/

/-- Claim C1, counterexample: on a run with no boundary collection the
degraded-mode output labels its rows with the sentinel "DESCONHECIDO", not
"UNKNOWN"; and on a run whose spatial join fails while the features carry
no pre-existing area column, the failure propagates as a fatal error
instead of being absorbed by degraded-mode aggregation. -/
theorem C1_counterexample :
    (processar_prodes_para exPara none interAll true).map
        (fun f => f.rows.map (fun r => r.get "municipio")) =
      Except.ok [Value.str "DESCONHECIDO", Value.str "DESCONHECIDO"] ∧
    Value.str "DESCONHECIDO" ≠ Value.str "UNKNOWN" ∧
    processar_prodes_para exParaNoArea (some exMun) interAll false =
      Except.error Err.missingAreaColumn :=
  ⟨rfl, by decide, rfl⟩

/-- Claim C2, counterexample: a collection containing one matching label
("d2019_valid") and one non-matching label ("2019") makes the whole run
fail with an extraction error; the non-matching feature is not dropped and
the matching one is not kept. -/
theorem C2_counterexample :
    processar_prodes_para exParaLabels none interAll true =
      Except.error Err.extractFailure :=
  rfl

/-- Claim C3, counterexample: with a pre-existing area attribute of 5 and
7 km² the normal-mode output reports 5 and 7, although the geometries'
reprojected measure would give 3 and 2 km²; the pre-existing attribute is
not bypassed. -/
theorem C3_counterexample :
    (processar_prodes_para exPara (some exMun) interAll true).map
        (fun f => f.rows.map (fun r => r.get "area_km")) =
      Except.ok [Value.rat 5, Value.rat 7] ∧
    geomArea rowPA2010 / 1000000 = 3 ∧
    Value.rat 5 ≠ Value.rat 3 := by
  refine ⟨?_, by norm_num [geomArea, rowPA2010], by decide⟩
  show Except.ok [Value.rat ((5 : ℚ) + 0), Value.rat ((7 : ℚ) + 0)] =
    Except.ok [Value.rat 5, Value.rat 7]
  simp

/-- Claim C4, counterexample: one non-numeric direct year value ("abc")
makes the whole run fail at the year-floor comparison; the feature is not
dropped, and no value is cast. -/
theorem C4_counterexample :
    processar_prodes_para exParaStr none interAll true =
      Except.error Err.yearTypeError :=
  rfl

/-- Claim C5, counterexample: a negative pre-existing area value (-5)
reaches the output unchanged, so a row with area_km2 < 0 is produced. -/
theorem C5_counterexample :
    (processar_prodes_para exParaNeg none interAll true).map
        (fun f => f.rows.map (fun r => (r.get "area_km").toRat)) =
      Except.ok [(-5 : ℚ)] ∧
    ¬(0 : ℚ) ≤ (-5 : ℚ) := by
  refine ⟨?_, by norm_num⟩
  show Except.ok [(-5 : ℚ) + 0] = Except.ok [(-5 : ℚ)]
  simp

/-- Claim C8, counterexample: when both collections lack a defined CRS the
run does not fail, it proceeds to a normal joined output. -/
theorem C8_counterexample :
    (processar_prodes_para exParaCrsNone (some exMunCrsNone) interAll true).map
        (fun f => f.rows.map (fun r => (r.get "NM_MUN", r.get "year", r.get "area_km"))) =
      Except.ok [(Value.str "Belem", Value.int 2010, Value.rat 5),
        (Value.str "Belem", Value.int 2009, Value.rat 7)] := by
  show Except.ok [(Value.str "Belem", Value.int 2010, Value.rat ((5 : ℚ) + 0)),
    (Value.str "Belem", Value.int 2009, Value.rat ((7 : ℚ) + 0))] =
    Except.ok [(Value.str "Belem", Value.int 2010, Value.rat 5),
      (Value.str "Belem", Value.int 2009, Value.rat 7)]
  simp

/-- Claim C9, counterexample: a run whose region filter selects zero
features ends with the no-matching-region abort and produces no output
table at all, not an empty table. -/
theorem C9_counterexample :
    (processar_prodes_para exParaSP none interAll true).map (fun f => f.rows) =
      Except.error Err.noMatchingRegion :=
  rfl

/-! Claim theorems. -/

/-- Claim C6 (confirmed): on every successful run, in normal and degraded
mode alike, the output table has at most one row per distinct (boundary
identifier, year) pair — the projection of the rows to the run's
identifier column paired with the year column has no duplicates. -/
theorem C6_unique_boundary_year (prodes : Frame) (municipios : Option Frame)
    (inter : Nat → Nat → Bool) (sjoinOk : Bool) (res : Frame)
    (h : processar_prodes_para prodes municipios inter sjoinOk = .ok res) :
    ∃ c, (res.rows.map (fun r => (r.get c, r.get "year"))).Nodup := by
  rcases processar_ok_cases prodes municipios inter sjoinOk res h with
    ⟨p1, p2, -, -, -, hbr⟩
  rcases hbr with ⟨mp, p3, j2, mcol, -, -, -, -, hr, rfl⟩ | ⟨pd, -, -, rfl⟩
  · refine ⟨mcol, ?_⟩
    rcases resolveMunicipioCol_ne j2.cols mcol hr with ⟨hy, -⟩
    show (((j2.rows.map (fun r => (r.get mcol, r.get "year"))).dedup.map
      (pairRow j2 mcol)).map (fun r => (r.get mcol, r.get "year"))).Nodup
    rw [List.map_map]
    have hid : ((fun r : Row => (r.get mcol, r.get "year")) ∘ pairRow j2 mcol) = id := by
      funext k
      show ((pairRow j2 mcol k).get mcol, (pairRow j2 mcol k).get "year") = k
      rw [pairRow_get_mcol, pairRow_get_year j2 mcol k hy]
    rw [hid, List.map_id]
    exact List.nodup_dedup _
  · refine ⟨"municipio", ?_⟩
    show (((pd.rows.map (fun r => r.get "year")).dedup.map (yearRow pd)).map
      (fun r => (r.get "municipio", r.get "year"))).Nodup
    rw [List.map_map]
    have hfun : ((fun r : Row => (r.get "municipio", r.get "year")) ∘ yearRow pd) =
        (fun y => (Value.str "DESCONHECIDO", y)) := by
      funext y
      show ((yearRow pd y).get "municipio", (yearRow pd y).get "year") = _
      rw [yearRow_get_mun, yearRow_get_year]
    rw [hfun]
    have hinj : Function.Injective (fun y : Value => (Value.str "DESCONHECIDO", y)) :=
      fun a b hab => congrArg Prod.snd hab
    exact List.Nodup.map hinj (List.nodup_dedup _)

/-- Concrete instance of the uniqueness theorem, on the degraded-mode run
over the example collection. -/
theorem C6_witness :
    ∃ c, ((groupbyYear exP2).rows.map (fun r => (r.get c, r.get "year"))).Nodup :=
  C6_unique_boundary_year exPara none interAll true (groupbyYear exP2) rfl

/-- Claim C7 (confirmed): municipality-identifier resolution returns the
first column present in the input among the name aliases NM_MUN, NOME,
NM_MUNICIP, NOM_MUN followed by the code aliases CD_MUN, COD_MUN,
GEOCODIGO (so the earlier-listed alias deterministically wins); it is none
exactly when no alias is present, and in that case the join block ends in
the column-not-found outcome. -/
theorem C7_resolver_priority :
    (∀ cols, resolveMunicipioCol cols =
      (nameAliases ++ codeAliases).find? (fun a => decide (a ∈ cols))) ∧
    (∀ cols, resolveMunicipioCol cols = none ↔
      ∀ a ∈ nameAliases ++ codeAliases, a ∉ cols) ∧
    (∀ (inter : Nat → Nat → Bool) (para mun j2 : Frame),
      ensureArea (sjoin inter para mun) = some j2 →
      resolveMunicipioCol j2.cols = none →
      tryJoinBlock inter true para mun = .columnNotFound) := by
  refine ⟨?_, ?_, ?_⟩
  · intro cols
    rw [resolveMunicipioCol_eq_findCol, findCol_eq_find?]
  · intro cols
    rw [resolveMunicipioCol_eq_findCol, findCol_eq_none]
  · intro inter para mun j2 hea hr
    unfold tryJoinBlock
    rw [if_pos rfl, hea]
    dsimp only
    rw [hr]

/-- Concrete instance of the resolver theorem: a column set offering both
a code alias and a (later-listed) name alias, the empty column set, and a
joined frame in which no alias resolves. -/
theorem C7_witness :
    resolveMunicipioCol ["CD_MUN", "NOME"] =
      (nameAliases ++ codeAliases).find?
        (fun a => decide (a ∈ ["CD_MUN", "NOME"])) ∧
    (resolveMunicipioCol [] = none ↔
      ∀ a ∈ nameAliases ++ codeAliases, a ∉ ([] : List String)) ∧
    tryJoinBlock interAll true exP2 exMunBare = .columnNotFound :=
  ⟨C7_resolver_priority.1 _, C7_resolver_priority.2.1 _,
    C7_resolver_priority.2.2 interAll exP2 exMunBare
      (sjoin interAll exP2 exMunBare) rfl rfl⟩

/-- Claim C9 (corrected): when the region filter selects zero features the
run reports the no-matching-region outcome and aborts without running the
aggregation — it returns no table at all rather than an empty one. -/
theorem C9_amended (prodes : Frame) (municipios : Option Frame)
    (inter : Nat → Nat → Bool) (sjoinOk : Bool)
    (hs : "state" ∈ prodes.cols) (hempty : (filterState prodes).rows = []) :
    processar_prodes_para prodes municipios inter sjoinOk =
      .error .noMatchingRegion := by
  have hcond : (filterState prodes).rows.isEmpty = true := by
    rw [hempty]
    rfl
  unfold processar_prodes_para
  rw [if_pos hs, if_pos hcond]

/-- Concrete instance of the empty-region theorem. -/
theorem C9_witness :
    processar_prodes_para exParaSP none interAll true =
      .error .noMatchingRegion :=
  C9_amended exParaSP none interAll true (by decide) (by decide)

/-- Claim C10 (confirmed): the temporal source is chosen once per input
collection — when a year column exists the collection passes through
unchanged (no label is consulted, a missing year value is not rescued),
and when it is absent label extraction is applied to every row. -/
theorem C10_temporal_choice :
    (∀ f : Frame, "year" ∈ f.cols → tempStep f = .ok f) ∧
    (∀ f g : Frame, "year" ∉ f.cols → "class_name" ∈ f.cols →
      tempStep f = .ok g →
      List.Forall₂ (fun r r2 => extractRowYear r = some r2) f.rows g.rows) := by
  constructor
  · intro f hy
    unfold tempStep
    rw [if_pos hy]
  · intro f g hy hc h
    unfold tempStep at h
    rw [if_neg hy, if_pos hc] at h
    cases hall : extractAll f.rows with
    | some rows2 =>
      rw [hall] at h
      dsimp only at h
      cases h
      exact extractAll_forall₂ _ _ hall
    | none => rw [hall] at h; cases h

/-- Concrete instance of the temporal-choice theorem: a collection whose
year column holds a missing value passes through unchanged although its
label would match, and a year-less collection has every row extracted. -/
theorem C10_witness :
    tempStep exParaNullYear = .ok exParaNullYear ∧
    List.Forall₂ (fun r r2 => extractRowYear r = some r2) exParaLabelsGood.rows
      [{ rowLblGood with attrs := ("year", Value.int 2019) :: rowLblGood.attrs }] :=
  ⟨C10_temporal_choice.1 exParaNullYear (by decide),
   C10_temporal_choice.2 exParaLabelsGood
     { cols := exParaLabelsGood.cols ++ ["year"], crs := exParaLabelsGood.crs,
       rows := [{ rowLblGood with attrs := ("year", Value.int 2019) :: rowLblGood.attrs }] }
     (by decide) (by decide) rfl⟩

/-- Claim C1 (corrected): degraded-mode aggregation — entered when no
boundary collection is available or when the spatial join raises — groups
the surviving features by year alone, sums their pre-existing area cells,
and emits exactly one row per distinct year carrying the sentinel
municipality "DESCONHECIDO" (not "UNKNOWN"); it requires a pre-existing
area column, and when that column is absent the degraded path itself is a
fatal error, so a join failure can still abort the run. -/
theorem C1_amended :
    (∀ f : Frame, "area_km" ∈ f.cols → degradedAgg f = .ok (groupbyYear f)) ∧
    (∀ f : Frame, "area_km" ∉ f.cols → degradedAgg f = .error .missingAreaColumn) ∧
    (∀ f : Frame,
      ((groupbyYear f).rows.map (fun r => r.get "year")).Nodup ∧
      (∀ y, y ∈ (groupbyYear f).rows.map (fun r => r.get "year") ↔
        y ∈ f.rows.map (fun r => r.get "year")) ∧
      ∀ r2 ∈ (groupbyYear f).rows,
        r2.get "municipio" = .str "DESCONHECIDO" ∧
        r2.get "area_km" = .rat (sumArea (f.rows.filter
          (fun r => decide (r.get "year" = r2.get "year"))))) ∧
    (∀ (prodes : Frame) (inter : Nat → Nat → Bool) (sjoinOk : Bool) (p1 p2 : Frame),
      "state" ∈ prodes.cols → ¬(filterState prodes).rows.isEmpty →
      tempStep (filterState prodes) = .ok p1 → floorStep p1 = .ok p2 →
      processar_prodes_para prodes none inter sjoinOk = degradedAgg p2) ∧
    (∀ (prodes m : Frame) (inter : Nat → Nat → Bool) (p1 p2 mp p3 : Frame),
      "state" ∈ prodes.cols → ¬(filterState prodes).rows.isEmpty →
      tempStep (filterState prodes) = .ok p1 → floorStep p1 = .ok p2 →
      prepMunicipios (some m) = some mp → crsStep p2 mp = .ok p3 →
      processar_prodes_para prodes (some m) inter false = degradedAgg p3) := by
  refine ⟨?_, ?_, ?_, ?_, ?_⟩
  · intro f hc
    unfold degradedAgg
    rw [if_pos hc]
  · intro f hc
    unfold degradedAgg
    rw [if_neg hc]
  · intro f
    refine ⟨?_, ?_, ?_⟩
    · rw [groupbyYear_map_year]
      exact List.nodup_dedup _
    · intro y
      rw [groupbyYear_map_year]
      exact List.mem_dedup
    · intro r2 h2
      rcases groupbyYear_rows_mem f r2 h2 with ⟨y, hy, rfl⟩
      refine ⟨yearRow_get_mun f y, ?_⟩
      rw [yearRow_get_year]
      exact yearRow_get_area f y
  · intro prodes inter sjoinOk p1 p2 hs hne ht hf
    exact processar_none_route prodes inter sjoinOk p1 p2 hs hne ht hf
  · intro prodes m inter p1 p2 mp p3 hs hne ht hf hp hc
    exact processar_joinfail_route prodes m inter p1 p2 mp p3 hs hne ht hf hp hc

/-- Concrete instance of the degraded-mode theorem: a normal degraded run
with the example collection, the missing-area fatal case, and both routes
into degraded aggregation. -/
theorem C1_witness :
    degradedAgg exP2 = .ok (groupbyYear exP2) ∧
    degradedAgg exParaNoArea = .error .missingAreaColumn ∧
    processar_prodes_para exPara none interAll true = degradedAgg exP2 ∧
    processar_prodes_para exPara (some exMun) interAll false = degradedAgg exP2 :=
  ⟨C1_amended.1 exP2 (by decide),
   C1_amended.2.1 exParaNoArea (by decide),
   C1_amended.2.2.2.1 exPara interAll true exP2 exP2 (by decide) (by decide) rfl rfl,
   C1_amended.2.2.2.2 exPara exMun interAll exP2 exP2 exMun exP2 (by decide)
     (by decide) rfl rfl rfl rfl⟩

/-- Claim C2 (corrected): a label yields the year written as a lowercase
letter d followed by four digits ("d2019_valid" gives 2019, "2019" fails);
but a feature whose label does not match is not dropped — its failed
extraction makes the whole temporal step, and hence the run, fail. -/
theorem C2_amended :
    extractYear "d2019_valid" = some 2019 ∧
    extractYear "2019" = none ∧
    (∀ f : Frame, "year" ∉ f.cols → "class_name" ∈ f.cols →
      (∃ r ∈ f.rows, extractRowYear r = none) →
      tempStep f = .error .extractFailure) ∧
    (∀ r r2 : Row, extractRowYear r = some r2 →
      ∃ s y, r.get "class_name" = .str s ∧ extractYear s = some y ∧
        r2.get "year" = .int (y : Int)) := by
  refine ⟨by decide, by decide, ?_, ?_⟩
  · intro f hy hc hex
    obtain ⟨r, hr, hbad⟩ := hex
    unfold tempStep
    rw [if_neg hy, if_pos hc, extractAll_none_of_bad f.rows r hr hbad]
  · intro r r2 h
    exact (extractRowYear_some r r2 h).2.2

/-- Concrete instance of the extraction theorem: the mixed-label example
collection fails as a whole, and the matching label row extracts 2019. -/
theorem C2_witness :
    tempStep exParaLabels = .error .extractFailure ∧
    ∃ s y, rowLblGood.get "class_name" = .str s ∧ extractYear s = some y ∧
      ({ rowLblGood with
          attrs := ("year", Value.int 2019) :: rowLblGood.attrs } : Row).get
        "year" = .int (y : Int) :=
  ⟨C2_amended.2.2.1 exParaLabels (by decide) (by decide)
      ⟨rowLblBad, by decide, rfl⟩,
   C2_amended.2.2.2 rowLblGood
     { rowLblGood with attrs := ("year", Value.int 2019) :: rowLblGood.attrs } rfl⟩

/-- Claim C3 (corrected): the equal-area computation runs only when no
pre-existing area column exists; in that case each joined record's area is
the geometry measured under the fixed EPSG:5880 reference divided by
1,000,000, whatever the frame's current reference, and the frame's stored
reference is left unchanged. When an area column pre-exists it is used
as is. -/
theorem C3_amended :
    (∀ j : Frame, "area_km" ∈ j.cols → ensureArea j = some j) ∧
    (∀ (j : Frame) (c : String), j.crs = some c → "area_km" ∉ j.cols →
      ∃ j2, ensureArea j = some j2 ∧ j2.crs = j.crs ∧
        List.Forall₂ (fun r r2 : Row => r2.geom = r.geom ∧
          r2.get "area_km" = .rat (geomArea r / 1000000) ∧
          r2.get "year" = r.get "year") j.rows j2.rows) := by
  constructor
  · intro j hc
    unfold ensureArea
    rw [if_pos hc]
  · intro j c hcrs hnc
    refine ⟨{ j with cols := j.cols ++ ["area_km"], rows := setArea j.rows },
      ?_, rfl, ?_⟩
    · unfold ensureArea
      rw [if_neg hnc, hcrs]
    · show List.Forall₂ _ j.rows (setArea j.rows)
      unfold setArea
      rw [List.forall₂_map_right_iff, List.forall₂_same]
      intro r hr
      exact ⟨rfl, getAttr_cons_eq _ _ _,
        getAttr_cons_ne "area_km" "year" _ _ (by decide)⟩

/-- Concrete instance of the area theorem: a frame with a pre-existing
area column passes through, and an area-less frame gets the computed
square-kilometer values with its reference untouched. -/
theorem C3_witness :
    ensureArea exPara = some exPara ∧
    ∃ j2, ensureArea exParaNoArea = some j2 ∧ j2.crs = exParaNoArea.crs ∧
      List.Forall₂ (fun r r2 : Row => r2.geom = r.geom ∧
        r2.get "area_km" = .rat (geomArea r / 1000000) ∧
        r2.get "year" = r.get "year") exParaNoArea.rows j2.rows :=
  ⟨C3_amended.1 exPara (by decide),
   C3_amended.2 exParaNoArea "EPSG:4674" rfl (by decide)⟩

/-- Claim C4 (corrected): a direct year value is used as is — never cast —
and one non-numeric (string) value makes the floor comparison, and hence
the run, fail instead of that feature being dropped. -/
theorem C4_amended :
    (∀ f : Frame, (∃ r ∈ f.rows, isStrVal (r.get "year") = true) →
      floorStep f = .error .yearTypeError) ∧
    (∀ f : Frame, (∀ r ∈ f.rows, isStrVal (r.get "year") = false) →
      floorStep f =
        .ok { f with rows := f.rows.filter (fun r => yearOK (r.get "year")) }) := by
  constructor
  · intro f hex
    obtain ⟨r, hr, hs⟩ := hex
    unfold floorStep
    rw [if_pos (List.any_eq_true.2 ⟨r, hr, hs⟩)]
  · intro f hall
    have hno : ¬f.rows.any (fun r => isStrVal (r.get "year")) = true := by
      rw [List.any_eq_true]
      rintro ⟨r, hr, hs⟩
      rw [hall r hr] at hs
      cases hs
    unfold floorStep
    rw [if_neg hno]

/-- Concrete instance of the floor theorem: the collection with a string
year fails, and the all-numeric collection is filtered with its values
untouched. -/
theorem C4_witness :
    floorStep exParaStr = .error .yearTypeError ∧
    floorStep exP2 =
      .ok { exP2 with rows := exP2.rows.filter (fun r => yearOK (r.get "year")) } :=
  ⟨C4_amended.1 exParaStr ⟨rowStrYear, by decide, rfl⟩,
   C4_amended.2 exP2 (by decide)⟩

/-- Claim C5 (corrected): every output row's year satisfies year ≥ 2008,
in both modes and for both temporal sources (the floor is one filter
applied after either source); area_km2 ≥ 0 holds for every output row
provided the input cells it is summed from are nonnegative — every
feature's pre-existing area cell and geometry measure, and every
boundary's area cell — but not unconditionally. -/
theorem C5_amended (prodes : Frame) (municipios : Option Frame)
    (inter : Nat → Nat → Bool) (sjoinOk : Bool) (res : Frame)
    (h : processar_prodes_para prodes municipios inter sjoinOk = .ok res) :
    (∀ r ∈ res.rows, yearGE2008 (r.get "year")) ∧
    ((∀ r ∈ prodes.rows, AreaOK r) →
      (∀ m, municipios = some m → ∀ b ∈ m.rows, 0 ≤ (b.get "area_km").toRat) →
      ∀ r ∈ res.rows, 0 ≤ (r.get "area_km").toRat) := by
  rcases processar_ok_cases prodes municipios inter sjoinOk res h with
    ⟨p1, p2, -, ht, hf, hbr⟩
  have hY2 : ∀ r ∈ p2.rows, yearGE2008 (r.get "year") :=
    fun r hr => (floorStep_mem p1 p2 hf r hr).2
  have hsub2 : ∀ r ∈ p2.rows, r ∈ p1.rows :=
    fun r hr => (floorStep_mem p1 p2 hf r hr).1
  rcases hbr with ⟨mp, p3, j2, mcol, hp, hc, -, hea, hr, rfl⟩ | ⟨pd, hpd, -, rfl⟩
  · rcases resolveMunicipioCol_ne j2.cols mcol hr with ⟨hmy, hma⟩
    have hrows3 : p3.rows = p2.rows := (crsStep_ok p2 mp p3 hc).1
    have hY3 : ∀ r ∈ p3.rows, yearGE2008 (r.get "year") := by
      rw [hrows3]
      exact hY2
    have hYj2 := ensureArea_rows_year _ j2 hea (sjoin_rows_year inter p3 mp hY3)
    constructor
    · exact groupby2_year j2 mcol hmy hYj2
    · intro hP hM
      have hA2 : ∀ r ∈ p2.rows, AreaOK r := fun r hrr =>
        tempStep_areaOK _ p1 ht (filterState_areaOK prodes hP) r (hsub2 r hrr)
      have hA3 : ∀ r ∈ p3.rows, AreaOK r := by
        rw [hrows3]
        exact hA2
      have hB : ∀ b ∈ mp.rows, 0 ≤ (b.get "area_km").toRat := by
        intro b hb
        rcases prepMunicipios_mem municipios mp hp b hb with ⟨m, hm, hbm⟩
        exact hM m hm b hbm
      have hAj2 := ensureArea_rows_area _ j2 hea (sjoin_rows_areaOK inter p3 mp hA3 hB)
      exact groupby2_area j2 mcol hma hAj2
  · constructor
    · apply groupbyYear_year
      rw [hpd]
      exact hY2
    · intro hP hM
      apply groupbyYear_area
      rw [hpd]
      intro r hrr
      exact (tempStep_areaOK _ p1 ht (filterState_areaOK prodes hP) r (hsub2 r hrr)).1

/-- Concrete instance of the row-invariant theorem, on the degraded-mode
run over the example collection. -/
theorem C5_witness :
    (∀ r ∈ (groupbyYear exP2).rows, yearGE2008 (r.get "year")) ∧
    (∀ r ∈ (groupbyYear exP2).rows, 0 ≤ (r.get "area_km").toRat) := by
  have h := C5_amended exPara none interAll true (groupbyYear exP2) rfl
  exact ⟨h.1, h.2 (by decide) (fun m hm => nomatch hm)⟩

/-- Claim C8 (corrected): when the two reference systems differ the
feature frame — never the boundary frame — is reprojected into the
boundaries' reference before the join; that reprojection fails when (and
only on the differing side) a reference is undefined; but when both
collections lack a reference the tags compare equal and the run proceeds
on the silently shared absence rather than failing. -/
theorem C8_amended :
    (∀ f m : Frame, f.crs = m.crs → crsStep f m = .ok f) ∧
    (∀ (f m : Frame) (a b : String), f.crs = some a → m.crs = some b → a ≠ b →
      crsStep f m = .ok { f with crs := some b }) ∧
    (∀ f m : Frame, f.crs ≠ m.crs → (f.crs = none ∨ m.crs = none) →
      crsStep f m = .error .crsTransformError) ∧
    (∀ f m g : Frame, crsStep f m = .ok g → g.rows = f.rows) := by
  refine ⟨?_, ?_, ?_, ?_⟩
  · intro f m he
    unfold crsStep
    rw [if_pos he]
  · intro f m a b hf hm hne
    have hneq : f.crs ≠ m.crs := by
      rw [hf, hm]
      intro hcon
      exact hne (Option.some.inj hcon)
    unfold crsStep
    rw [if_neg hneq, hf, hm]
  · intro f m hne hnone
    unfold crsStep
    rw [if_neg hne]
    rcases hnone with hfn | hmn
    · rw [hfn]
    · cases hfc : f.crs with
      | none => rfl
      | some a => rw [hmn]
  · intro f m g h
    exact (crsStep_ok f m g h).1

/-- Concrete instance of the reference-normalization theorem: equal
references pass through, a differing boundary reference rewrites the
feature frame's tag, and an undefined feature reference is fatal. -/
theorem C8_witness :
    crsStep exPara exMun = .ok exPara ∧
    crsStep exPara exMunCrs5880 = .ok { exPara with crs := some "EPSG:5880" } ∧
    crsStep exParaCrsNone exMun = .error .crsTransformError ∧
    exPara.rows = exPara.rows :=
  ⟨C8_amended.1 exPara exMun rfl,
   C8_amended.2.1 exPara exMunCrs5880 "EPSG:4674" "EPSG:5880" rfl rfl (by decide),
   C8_amended.2.2.1 exParaCrsNone exMun (by decide) (Or.inl rfl),
   C8_amended.2.2.2 exPara exMun exPara (C8_amended.1 exPara exMun rfl)⟩

end Prodes
